import Mathlib

/-!
Verification of the transcript-decoding subsystem: pydantic models and the
functions `parse_content_item`, `parse_message_content`, `normalize_usage_info`
and `parse_transcript_entry` are embedded as pure Lean functions over a JSON
value type, and the specified properties are settled against this embedding.
-/

namespace Transcript

/-- A JSON value, as produced by loading one transcript line.  Numbers are
modelled as integers (the decoder only deals in token counts and line counts);
objects are association lists with the first binding of a key taking
precedence, mirroring dict lookup. -/
inductive Json where
  | null : Json
  | bool (b : Bool) : Json
  | num (n : Int) : Json
  | str (s : String) : Json
  | arr (elems : List Json) : Json
  | obj (fields : List (String × Json)) : Json

/-- The single-quote character, used by Python repr of strings. -/
def sq : String := String.singleton (Char.ofNat 39)

/-- Escape one character the way Python repr of a string does (covering the
backslash, the quote and common control characters). -/
def escapeChar (c : Char) : String :=
  if c = Char.ofNat 92 then "\\\\"
  else if c = Char.ofNat 39 then "\\" ++ sq
  else if c = Char.ofNat 10 then "\\n"
  else if c = Char.ofNat 13 then "\\r"
  else if c = Char.ofNat 9 then "\\t"
  else String.singleton c

/-- Python repr of a string: single-quoted with escapes. -/
def quoteStr (s : String) : String :=
  sq ++ String.join (s.toList.map escapeChar) ++ sq

mutual

/-- Python `repr` of a JSON-shaped value (dicts print with quoted keys,
strings print quoted). -/
def pyRepr : Json → String
  | .null => "None"
  | .bool true => "True"
  | .bool false => "False"
  | .num n => toString n
  | .str s => quoteStr s
  | .arr xs => "[" ++ pyReprList xs ++ "]"
  | .obj fs => "\x7b" ++ pyReprFields fs ++ "\x7d"

/-- Comma-separated reprs of the elements of a list. -/
def pyReprList : List Json → String
  | [] => ""
  | [x] => pyRepr x
  | x :: y :: xs => pyRepr x ++ ", " ++ pyReprList (y :: xs)

/-- Comma-separated `key: value` reprs of the bindings of a dict. -/
def pyReprFields : List (String × Json) → String
  | [] => ""
  | [(k, v)] => quoteStr k ++ ": " ++ pyRepr v
  | (k, v) :: b :: fs => quoteStr k ++ ": " ++ pyRepr v ++ ", " ++ pyReprFields (b :: fs)

end

/-- Python `str` of a JSON-shaped value: a bare string renders as itself,
anything else renders as its repr. -/
def pyStr : Json → String
  | .str s => s
  | j => pyRepr j

/-- Whether a JSON value is an object (a Python dict). -/
def Json.isObj : Json → Bool
  | .obj _ => true
  | _ => false

/- Primitive field decoders shared by the pydantic-model embeddings. -/

/-- Validate a required `str` field value. -/
def asStr : Json → Option String
  | .str s => some s
  | _ => none

/-- Validate a required `bool` field value. -/
def asBool : Json → Option Bool
  | .bool b => some b
  | _ => none

/-- Validate a required `int` field value, with the lax coercion pydantic
applies to decimal strings. -/
def asInt : Json → Option Int
  | .num n => some n
  | .str s => s.toInt?
  | _ => none

/-- Validate an `Optional[str]` field value (null is accepted as None). -/
def asStrOpt : Json → Option (Option String)
  | .null => some none
  | .str s => some (some s)
  | _ => none

/-- Validate an `Optional[bool]` field value. -/
def asBoolOpt : Json → Option (Option Bool)
  | .null => some none
  | .bool b => some (some b)
  | _ => none

/-- Validate an `Optional[int]` field value. -/
def asIntOpt : Json → Option (Option Int)
  | .null => some none
  | j => (asInt j).map some

/-- Validate an `Optional[Dict[str, Any]]` field value. -/
def asObjOpt : Json → Option (Option (List (String × Json)))
  | .null => some none
  | .obj f => some (some f)
  | _ => none

/-- Decode an optional field of a model from a dict: an absent key takes the
default None, a present key is validated by `dec`. -/
def optField (fields : List (String × Json)) (k : String)
    (dec : Json → Option (Option α)) : Option (Option α) :=
  match fields.lookup k with
  | none => some none
  | some v => dec v

/- Content-item model: the five locally defined shapes plus the
provider-native text / tool-use / thinking block shapes that are tried
first.  The literal `type` tag of each shape is implied by the constructor
and re-emitted on encoding. -/

/-- Provider-native text block (type "text"). -/
structure TextBlock where
  text : String
deriving DecidableEq

/-- Local text content shape (type "text"). -/
structure TextContent where
  text : String
deriving DecidableEq

/-- Provider-native tool-use block (type "tool_use"). -/
structure ToolUseBlock where
  id : String
  name : String
  input : List (String × Json)

/-- Local tool-use content shape (type "tool_use"). -/
structure ToolUseContent where
  id : String
  name : String
  input : List (String × Json)

/-- Provider-native thinking block (type "thinking"); its signature is a
required string. -/
structure ThinkingBlock where
  thinking : String
  signature : String
deriving DecidableEq

/-- Local thinking content shape (type "thinking"); its signature is
optional. -/
structure ThinkingContent where
  thinking : String
  signature : Option String
deriving DecidableEq

/-- The `content` field of a tool result: a string or a list of dicts. -/
inductive ToolResultBody where
  | str (s : String) : ToolResultBody
  | items (l : List (List (String × Json))) : ToolResultBody

/-- Local tool-result content shape (type "tool_result"). -/
structure ToolResultContent where
  tool_use_id : String
  content : ToolResultBody
  is_error : Option Bool

/-- Base64 image source (type "base64"). -/
structure ImageSource where
  media_type : String
  data : String
deriving DecidableEq

/-- Local image content shape (type "image"). -/
structure ImageContent where
  source : ImageSource
deriving DecidableEq

/-- One decoded message-content item: a locally defined shape or a
provider-native block, as in the `ContentItem` union. -/
inductive ContentItem where
  | textBlock (b : TextBlock) : ContentItem
  | text (t : TextContent) : ContentItem
  | toolUseBlock (b : ToolUseBlock) : ContentItem
  | toolUse (t : ToolUseContent) : ContentItem
  | thinkingBlock (b : ThinkingBlock) : ContentItem
  | thinking (t : ThinkingContent) : ContentItem
  | toolResult (t : ToolResultContent) : ContentItem
  | image (i : ImageContent) : ContentItem

/-- Structural validation of the provider-native text block. -/
def validateTextBlock : Json → Option TextBlock
  | .obj f =>
    match f.lookup "type", f.lookup "text" with
    | some (.str "text"), some (.str t) => some ⟨t⟩
    | _, _ => none
  | _ => none

/-- Structural validation of the local text shape. -/
def validateTextContent : Json → Option TextContent
  | .obj f =>
    match f.lookup "type", f.lookup "text" with
    | some (.str "text"), some (.str t) => some ⟨t⟩
    | _, _ => none
  | _ => none

/-- Structural validation of the provider-native tool-use block. -/
def validateToolUseBlock : Json → Option ToolUseBlock
  | .obj f =>
    match f.lookup "type", f.lookup "id", f.lookup "name", f.lookup "input" with
    | some (.str "tool_use"), some (.str i), some (.str n), some (.obj inp) =>
        some ⟨i, n, inp⟩
    | _, _, _, _ => none
  | _ => none

/-- Structural validation of the local tool-use shape. -/
def validateToolUseContent : Json → Option ToolUseContent
  | .obj f =>
    match f.lookup "type", f.lookup "id", f.lookup "name", f.lookup "input" with
    | some (.str "tool_use"), some (.str i), some (.str n), some (.obj inp) =>
        some ⟨i, n, inp⟩
    | _, _, _, _ => none
  | _ => none

/-- Structural validation of the provider-native thinking block (signature
required). -/
def validateThinkingBlock : Json → Option ThinkingBlock
  | .obj f =>
    match f.lookup "type", f.lookup "thinking", f.lookup "signature" with
    | some (.str "thinking"), some (.str th), some (.str sg) => some ⟨th, sg⟩
    | _, _, _ => none
  | _ => none

/-- Structural validation of the local thinking shape (signature optional). -/
def validateThinkingContent : Json → Option ThinkingContent
  | .obj f =>
    match f.lookup "type", f.lookup "thinking" with
    | some (.str "thinking"), some (.str th) =>
        (optField f "signature" asStrOpt).map fun sg => ⟨th, sg⟩
    | _, _ => none
  | _ => none

/-- Validate a `List[Dict[str, Any]]` value: every element must be a dict. -/
def asDictList : List Json → Option (List (List (String × Json)))
  | [] => some []
  | .obj f :: rest => (asDictList rest).map (f :: ·)
  | _ => none

/-- Validate the `Union[str, List[Dict[str, Any]]]` body of a tool result. -/
def asToolResultBody : Json → Option ToolResultBody
  | .str s => some (.str s)
  | .arr xs => (asDictList xs).map .items
  | _ => none

/-- Structural validation of the local tool-result shape. -/
def validateToolResultContent : Json → Option ToolResultContent
  | .obj f =>
    match f.lookup "type", f.lookup "tool_use_id" with
    | some (.str "tool_result"), some (.str tid) => do
        let body ← (f.lookup "content").bind asToolResultBody
        let err ← optField f "is_error" asBoolOpt
        pure ⟨tid, body, err⟩
    | _, _ => none
  | _ => none

/-- Structural validation of the base64 image source. -/
def validateImageSource : Json → Option ImageSource
  | .obj f =>
    match f.lookup "type", f.lookup "media_type", f.lookup "data" with
    | some (.str "base64"), some (.str mt), some (.str d) => some ⟨mt, d⟩
    | _, _, _ => none
  | _ => none

/-- Structural validation of the local image shape. -/
def validateImageContent : Json → Option ImageContent
  | .obj f =>
    match f.lookup "type", f.lookup "source" with
    | some (.str "image"), some src => (validateImageSource src).map (⟨·⟩)
    | _, _ => none
  | _ => none

/-- The content-item decoder: dispatch on the `type` tag, try the
provider-native shape first for text / tool-use / thinking, and fall back to
a Text item rendering the whole input whenever no shape matches (the
function is total by construction, mirroring the catch-all handler in the
source). -/
def parse_content_item (item : Json) : ContentItem :=
  match item with
  | .obj f =>
    match f.lookup "type" with
    | some (.str "text") =>
        match validateTextBlock (Json.obj f) with
        | some b => .textBlock b
        | none =>
          match validateTextContent (Json.obj f) with
          | some t => .text t
          | none => .text ⟨pyStr (Json.obj f)⟩
    | some (.str "tool_use") =>
        match validateToolUseBlock (Json.obj f) with
        | some b => .toolUseBlock b
        | none =>
          match validateToolUseContent (Json.obj f) with
          | some t => .toolUse t
          | none => .text ⟨pyStr (Json.obj f)⟩
    | some (.str "thinking") =>
        match validateThinkingBlock (Json.obj f) with
        | some b => .thinkingBlock b
        | none =>
          match validateThinkingContent (Json.obj f) with
          | some t => .thinking t
          | none => .text ⟨pyStr (Json.obj f)⟩
    | some (.str "tool_result") =>
        match validateToolResultContent (Json.obj f) with
        | some t => .toolResult t
        | none => .text ⟨pyStr (Json.obj f)⟩
    | some (.str "image") =>
        match validateImageContent (Json.obj f) with
        | some i => .image i
        | none => .text ⟨pyStr (Json.obj f)⟩
    | _ => .text ⟨pyStr (Json.obj f)⟩
  | _ => .text ⟨pyStr item⟩

/-- A decoded `message.content` value: a verbatim string or an ordered list
of content items. -/
inductive MessageContent where
  | str (s : String) : MessageContent
  | items (l : List ContentItem) : MessageContent

/-- The message-content rule: strings pass through verbatim, lists are mapped
elementwise through the content-item decoder, and anything else is rendered
to a string. -/
def parse_message_content : Json → MessageContent
  | .str s => .str s
  | .arr xs => .items (xs.map parse_content_item)
  | j => .str (pyStr j)

/- Usage normalization. -/

/-- Canonical token-usage record; every field is individually optional. -/
structure UsageInfo where
  input_tokens : Option Int := none
  cache_creation_input_tokens : Option Int := none
  cache_read_input_tokens : Option Int := none
  output_tokens : Option Int := none
  service_tier : Option String := none
  server_tool_use : Option (List (String × Json)) := none

/-- Modelled from the spec: the provider-native usage shape (the `anthropic`
SDK `Usage` model, which is not part of this repository).  Its input and
output token counts are required; the remaining fields are optional, with
the opaque server-tool-use metadata kept as an untyped mapping. -/
structure AnthropicUsage where
  input_tokens : Int
  output_tokens : Int
  cache_creation_input_tokens : Option Int
  cache_read_input_tokens : Option Int
  service_tier : Option String
  server_tool_use : Option (List (String × Json))

/-- Field-by-field conversion of a provider-native usage value into the
canonical record. -/
def UsageInfo.from_anthropic_usage (u : AnthropicUsage) : UsageInfo :=
  { input_tokens := some u.input_tokens
    output_tokens := some u.output_tokens
    cache_creation_input_tokens := u.cache_creation_input_tokens
    cache_read_input_tokens := u.cache_read_input_tokens
    service_tier := u.service_tier
    server_tool_use := u.server_tool_use }

/-- Structural validation of a dict against the canonical `UsageInfo` model:
every field is optional, absent or null fields default to None, present
fields must have the right type. -/
def validateUsageInfo (fields : List (String × Json)) : Option UsageInfo := do
  let it ← optField fields "input_tokens" asIntOpt
  let ccit ← optField fields "cache_creation_input_tokens" asIntOpt
  let crit ← optField fields "cache_read_input_tokens" asIntOpt
  let ot ← optField fields "output_tokens" asIntOpt
  let tier ← optField fields "service_tier" asStrOpt
  let stu ← optField fields "server_tool_use" asObjOpt
  pure ⟨it, ccit, crit, ot, tier, stu⟩

/-- The possible runtime values handed to the usage normalizer: Python None,
an already-canonical record, a provider-native record, some other object
exposing attributes, a plain dict, or anything else (a scalar, a list...). -/
inductive UsageData where
  | pyNone : UsageData
  | usageInfo (u : UsageInfo) : UsageData
  | anthropicUsage (u : AnthropicUsage) : UsageData
  | pyObject (attrs : List (String × Json)) : UsageData
  | dict (fields : List (String × Json)) : UsageData
  | other : UsageData

/-- The way a raw JSON value inside a transcript presents itself to the
normalizer: null is None, an object is a dict, and any other JSON value is a
bare scalar or list with none of the relevant attributes. -/
def usageDataOfJson : Json → UsageData
  | .null => .pyNone
  | .obj f => .dict f
  | _ => .other

/-- The duck-typed fallback extraction: read each of the six usage attributes
with a None default and validate them through the `UsageInfo` constructor
(an attribute of the wrong type makes the constructor raise). -/
def duckUsageInfo (attrs : List (String × Json)) : Option UsageInfo := do
  let it ← asIntOpt ((attrs.lookup "input_tokens").getD .null)
  let ccit ← asIntOpt ((attrs.lookup "cache_creation_input_tokens").getD .null)
  let crit ← asIntOpt ((attrs.lookup "cache_read_input_tokens").getD .null)
  let ot ← asIntOpt ((attrs.lookup "output_tokens").getD .null)
  let tier ← asStrOpt ((attrs.lookup "service_tier").getD .null)
  let stu ← asObjOpt ((attrs.lookup "server_tool_use").getD .null)
  pure ⟨it, ccit, crit, ot, tier, stu⟩

/-- An uncaught exception escaping the usage normalizer (a pydantic
validation error). -/
inductive UsageErr where
  | validationError : UsageErr
deriving DecidableEq

/-- The usage normalizer.  None and non-dict inputs without the two token
attributes map to None; canonical and provider-native records are taken as
such; an object exposing both token attributes goes through the duck-typed
fallback (provider-native `model_validate` rejects every plain object, since
it only accepts dicts and instances, so the strict attempt in the source
always falls through to the attribute extraction); a plain dict is validated
directly against the canonical model, and a validation failure there (or in
the duck-typed extraction) escapes as an exception. -/
def normalize_usage_info : UsageData → Except UsageErr (Option UsageInfo)
  | .pyNone => .ok none
  | .usageInfo u => .ok (some u)
  | .anthropicUsage u => .ok (some (UsageInfo.from_anthropic_usage u))
  | .pyObject attrs =>
    if ((attrs.lookup "input_tokens").isSome && (attrs.lookup "output_tokens").isSome) then
      match duckUsageInfo attrs with
      | some u => .ok (some u)
      | none => .error .validationError
    else .ok none
  | .dict fields =>
    match validateUsageInfo fields with
    | some u => .ok (some u)
    | none => .error .validationError
  | .other => .ok none

/-- Re-inject a normalizer result as a normalizer input (None stays None, a
canonical record is passed back as such), for stating idempotence. -/
def UsageData.ofResult : Option UsageInfo → UsageData
  | none => .pyNone
  | some u => .usageInfo u

/- Tool-use-result model (the six structural shapes plus MCP-style content
item sequences). -/

/-- Status tag of a todo item. -/
inductive TodoStatus where
  | pending : TodoStatus
  | in_progress : TodoStatus
  | completed : TodoStatus
deriving DecidableEq

/-- Priority tag of a todo item. -/
inductive TodoPriority where
  | high : TodoPriority
  | medium : TodoPriority
  | low : TodoPriority
deriving DecidableEq

/-- One todo item. -/
structure TodoItem where
  id : String
  content : String
  status : TodoStatus
  priority : TodoPriority
deriving DecidableEq

/-- File metadata inside a file-read result. -/
structure FileInfo where
  filePath : String
  content : String
  numLines : Int
  startLine : Int
  totalLines : Int
deriving DecidableEq

/-- File-read tool result (type "text" plus file metadata). -/
structure FileReadResult where
  file : FileInfo
deriving DecidableEq

/-- Command execution tool result. -/
structure CommandResult where
  stdout : String
  stderr : String
  interrupted : Bool
  isImage : Bool
deriving DecidableEq

/-- Todo-diff tool result. -/
structure TodoResult where
  oldTodos : List TodoItem
  newTodos : List TodoItem
deriving DecidableEq

/-- Edit tool result; every field is optional and the structured patch is an
untyped value. -/
structure EditResult where
  oldString : Option String := none
  newString : Option String := none
  replaceAll : Option Bool := none
  originalFile : Option String := none
  structuredPatch : Option Json := none
  userModified : Option Bool := none

/-- The `ToolUseResult` union. -/
inductive ToolUseResult where
  | str (s : String) : ToolUseResult
  | todos (l : List TodoItem) : ToolUseResult
  | fileRead (r : FileReadResult) : ToolUseResult
  | command (r : CommandResult) : ToolUseResult
  | todoDiff (r : TodoResult) : ToolUseResult
  | edit (r : EditResult) : ToolUseResult
  | contentItems (l : List ContentItem) : ToolUseResult

/-- Validate one todo status literal. -/
def validateTodoStatus : Json → Option TodoStatus
  | .str "pending" => some .pending
  | .str "in_progress" => some .in_progress
  | .str "completed" => some .completed
  | _ => none

/-- Validate one todo priority literal. -/
def validateTodoPriority : Json → Option TodoPriority
  | .str "high" => some .high
  | .str "medium" => some .medium
  | .str "low" => some .low
  | _ => none

/-- Structural validation of one todo item. -/
def validateTodoItem : Json → Option TodoItem
  | .obj f =>
    match f.lookup "id", f.lookup "content" with
    | some (.str i), some (.str c) => do
        let st ← (f.lookup "status").bind validateTodoStatus
        let pr ← (f.lookup "priority").bind validateTodoPriority
        pure ⟨i, c, st, pr⟩
    | _, _ => none
  | _ => none

/-- Validate a `List[TodoItem]` value elementwise. -/
def validateTodoList : List Json → Option (List TodoItem)
  | [] => some []
  | x :: xs => do
      let t ← validateTodoItem x
      let ts ← validateTodoList xs
      pure (t :: ts)

/-- Structural validation of the file metadata record. -/
def validateFileInfo : Json → Option FileInfo
  | .obj f => do
      let fp ← (f.lookup "filePath").bind asStr
      let c ← (f.lookup "content").bind asStr
      let nl ← (f.lookup "numLines").bind asInt
      let sl ← (f.lookup "startLine").bind asInt
      let tl ← (f.lookup "totalLines").bind asInt
      pure ⟨fp, c, nl, sl, tl⟩
  | _ => none

/-- Structural validation of the file-read result shape. -/
def validateFileReadResult (f : List (String × Json)) : Option FileReadResult :=
  match f.lookup "type", f.lookup "file" with
  | some (.str "text"), some fj => (validateFileInfo fj).map (⟨·⟩)
  | _, _ => none

/-- Structural validation of the command result shape. -/
def validateCommandResult (f : List (String × Json)) : Option CommandResult := do
  let so ← (f.lookup "stdout").bind asStr
  let se ← (f.lookup "stderr").bind asStr
  let ir ← (f.lookup "interrupted").bind asBool
  let im ← (f.lookup "isImage").bind asBool
  pure ⟨so, se, ir, im⟩

/-- Structural validation of the todo-diff result shape. -/
def validateTodoResult (f : List (String × Json)) : Option TodoResult :=
  match f.lookup "oldTodos", f.lookup "newTodos" with
  | some (.arr os), some (.arr ns) => do
      let ol ← validateTodoList os
      let nl ← validateTodoList ns
      pure ⟨ol, nl⟩
  | _, _ => none

/-- Validate an `Optional[Any]` field value (never fails; null is None). -/
def asAnyOpt : Json → Option (Option Json)
  | .null => some none
  | j => some (some j)

/-- Structural validation of the edit result shape (all fields optional). -/
def validateEditResult (f : List (String × Json)) : Option EditResult := do
  let os ← optField f "oldString" asStrOpt
  let ns ← optField f "newString" asStrOpt
  let ra ← optField f "replaceAll" asBoolOpt
  let og ← optField f "originalFile" asStrOpt
  let sp ← optField f "structuredPatch" asAnyOpt
  let um ← optField f "userModified" asBoolOpt
  pure ⟨os, ns, ra, og, sp, um⟩

/-- Structural validation of one raw value against the `ContentItem` union in
declaration order: the five local shapes first, then the provider-native
blocks. -/
def validateContentItemRaw (j : Json) : Option ContentItem :=
  (validateTextContent j).map .text <|>
  (validateToolUseContent j).map .toolUse <|>
  (validateToolResultContent j).map .toolResult <|>
  (validateThinkingContent j).map .thinking <|>
  (validateImageContent j).map .image <|>
  (validateTextBlock j).map .textBlock <|>
  (validateToolUseBlock j).map .toolUseBlock <|>
  (validateThinkingBlock j).map .thinkingBlock

/-- Validate a raw `List[ContentItem]` value elementwise. -/
def validateContentItemListRaw : List Json → Option (List ContentItem)
  | [] => some []
  | x :: xs => do
      let c ← validateContentItemRaw x
      let cs ← validateContentItemListRaw xs
      pure (c :: cs)

/-- Structural validation of a raw value against the `ToolUseResult` union,
member by member in declaration order. -/
def decodeToolUseResultUnion : Json → Option ToolUseResult
  | .str s => some (.str s)
  | .arr xs =>
    match validateTodoList xs with
    | some l => some (.todos l)
    | none => (validateContentItemListRaw xs).map .contentItems
  | .obj f =>
    match validateFileReadResult f with
    | some r => some (.fileRead r)
    | none =>
      match validateCommandResult f with
      | some r => some (.command r)
      | none =>
        match validateTodoResult f with
        | some r => some (.todoDiff r)
        | none => (validateEditResult f).map .edit
  | _ => none

/-- The MCP test of the user branch: the raw sequence is non-empty and its
first element is a dict carrying a `type` key. -/
def mcpCondition : List Json → Bool
  | .obj f :: _ => (f.lookup "type").isSome
  | _ => false

/-- Decode the optional `toolUseResult` field of a user entry: an MCP-style
sequence has its dict elements mapped through the content-item decoder
(non-dict elements are dropped by the comprehension's filter); anything else
is structurally matched against the union, and a mismatch is a validation
error. -/
def decodeToolUseResultField : Option Json → Except String (Option ToolUseResult)
  | none => .ok none
  | some .null => .ok none
  | some (.arr xs) =>
    if mcpCondition xs then
      .ok (some (.contentItems ((xs.filter Json.isObj).map parse_content_item)))
    else
      match decodeToolUseResultUnion (.arr xs) with
      | some t => .ok (some t)
      | none => .error "user.toolUseResult"
  | some j =>
    match decodeToolUseResultUnion j with
    | some t => .ok (some t)
    | none => .error "user.toolUseResult"

/- Transcript-entry model. -/

/-- The session-metadata block shared by user, assistant and system entries.
The parent back-reference is a required but nullable field. -/
structure BaseTranscriptEntry where
  parentUuid : Option String
  isSidechain : Bool
  userType : String
  cwd : String
  sessionId : String
  version : String
  uuid : String
  timestamp : String
  isMeta : Option Bool
deriving DecidableEq

/-- Validate the shared session-metadata fields of a raw record. -/
def validateBaseMeta (data : List (String × Json)) : Option BaseTranscriptEntry := do
  let pu ← (data.lookup "parentUuid").bind asStrOpt
  let sc ← (data.lookup "isSidechain").bind asBool
  let ut ← (data.lookup "userType").bind asStr
  let cw ← (data.lookup "cwd").bind asStr
  let sid ← (data.lookup "sessionId").bind asStr
  let vr ← (data.lookup "version").bind asStr
  let uu ← (data.lookup "uuid").bind asStr
  let ts ← (data.lookup "timestamp").bind asStr
  let im ← optField data "isMeta" asBoolOpt
  pure ⟨pu, sc, ut, cw, sid, vr, uu, ts, im⟩

/-- A user message (role "user"): verbatim string content or a content-item
sequence. -/
structure UserMessage where
  content : MessageContent

/-- An assistant message (type "message", role "assistant"). The provider's
stop-reason tag is kept as an opaque optional string. -/
structure AssistantMessage where
  id : String
  model : String
  content : List ContentItem
  stop_reason : Option String
  stop_sequence : Option String
  usage : Option UsageInfo

/-- A user transcript entry. -/
structure UserTranscriptEntry where
  base : BaseTranscriptEntry
  message : UserMessage
  toolUseResult : Option ToolUseResult

/-- An assistant transcript entry. -/
structure AssistantTranscriptEntry where
  base : BaseTranscriptEntry
  message : AssistantMessage
  requestId : Option String

/-- A summary transcript entry (no shared session metadata). -/
structure SummaryTranscriptEntry where
  summary : String
  leafUuid : String
  cwd : Option String
deriving DecidableEq

/-- A system transcript entry. -/
structure SystemTranscriptEntry where
  base : BaseTranscriptEntry
  content : String
  level : Option String
deriving DecidableEq

/-- The queue-operation tag. -/
inductive QueueOp where
  | enqueue : QueueOp
  | dequeue : QueueOp
deriving DecidableEq

/-- A queue-operation transcript entry. -/
structure QueueOperationTranscriptEntry where
  operation : QueueOp
  timestamp : String
  sessionId : String
  content : Option (List ContentItem)

/-- The `TranscriptEntry` union over the five entry variants. -/
inductive TranscriptEntry where
  | user (e : UserTranscriptEntry) : TranscriptEntry
  | assistant (e : AssistantTranscriptEntry) : TranscriptEntry
  | summary (e : SummaryTranscriptEntry) : TranscriptEntry
  | system (e : SystemTranscriptEntry) : TranscriptEntry
  | queueOperation (e : QueueOperationTranscriptEntry) : TranscriptEntry

/-- The five known discriminator tags, in dispatch order. -/
def knownTags : List String :=
  ["user", "assistant", "summary", "system", "queue-operation"]

/-- The discriminator tag a decoded variant answers to. -/
def variantTag : TranscriptEntry → String
  | .user _ => "user"
  | .assistant _ => "assistant"
  | .summary _ => "summary"
  | .system _ => "system"
  | .queueOperation _ => "queue-operation"

/- Per-variant decoding. -/

/-- Decode the `message` field of a user entry: when it is a dict with a
`content` key the content is first rewritten by the message-content rule and
then the message is validated (role must be the literal "user"); a dict
without `content`, a missing message, or a non-dict message all fail
validation of the required message field. -/
def decodeUserMessageField : Option Json → Except String UserMessage
  | some (.obj mf) =>
    match mf.lookup "content" with
    | some c =>
      match mf.lookup "role" with
      | some (.str "user") => .ok ⟨parse_message_content c⟩
      | _ => .error "user.message.role"
    | none => .error "user.message.content"
  | _ => .error "user.message"

/-- Decode a raw record already known to carry the `user` tag. -/
def parseUserEntry (data : List (String × Json)) : Except String UserTranscriptEntry :=
  match decodeUserMessageField (data.lookup "message") with
  | .error e => .error e
  | .ok msg =>
    match decodeToolUseResultField (data.lookup "toolUseResult") with
    | .error e => .error e
    | .ok tur =>
      match validateBaseMeta data with
      | none => .error "user.base"
      | some b => .ok ⟨b, msg, tur⟩

/-- Normalize the optional `usage` field of an assistant message before
validation; a normalization failure escapes as a decoding error. -/
def normalizeUsageField (mf : List (String × Json)) : Except String (Option UsageInfo) :=
  match mf.lookup "usage" with
  | none => .ok none
  | some uj =>
    match normalize_usage_info (usageDataOfJson uj) with
    | .ok r => .ok r
    | .error _ => .error "assistant.message.usage"

/-- Decode the `message` field of an assistant entry: rewrite the content by
the message-content rule, normalize the usage field, then validate the
message shape (the content must be a sequence, never a bare string, and the
literal type and role tags must match). -/
def decodeAssistantMessageField : Option Json → Except String AssistantMessage
  | some (.obj mf) =>
    match mf.lookup "content" with
    | some c =>
      match normalizeUsageField mf with
      | .error e => .error e
      | .ok usage =>
        match parse_message_content c with
        | .str _ => .error "assistant.message.content"
        | .items items =>
          match mf.lookup "id", mf.lookup "type", mf.lookup "role", mf.lookup "model" with
          | some (.str i), some (.str "message"), some (.str "assistant"), some (.str mdl) =>
            match optField mf "stop_reason" asStrOpt, optField mf "stop_sequence" asStrOpt with
            | some sr, some ss => .ok ⟨i, mdl, items, sr, ss, usage⟩
            | _, _ => .error "assistant.message.stop"
          | _, _, _, _ => .error "assistant.message.fields"
    | none => .error "assistant.message.content"
  | _ => .error "assistant.message"

/-- Decode a raw record already known to carry the `assistant` tag (the
shared standard parsing path). -/
def parseAssistantCore (data : List (String × Json)) : Except String AssistantTranscriptEntry :=
  match decodeAssistantMessageField (data.lookup "message") with
  | .error e => .error e
  | .ok msg =>
    match optField data "requestId" asStrOpt with
    | none => .error "assistant.requestId"
    | some rid =>
      match validateBaseMeta data with
      | none => .error "assistant.base"
      | some b => .ok ⟨b, msg, rid⟩

/-- Modelled from the spec: a best-effort structural check of a raw message
against the provider-native assistant-message shape (the `anthropic` SDK
`Message` model, which is not part of this repository): a dict with a string
id, literal type "message", literal role "assistant", a string model, a
sequence of provider-native content blocks, and a usage record with both
required token counts. -/
def validateAnthropicMessage : Json → Bool
  | .obj mf =>
    (match mf.lookup "id", mf.lookup "type", mf.lookup "role", mf.lookup "model" with
     | some (.str _), some (.str "message"), some (.str "assistant"), some (.str _) => true
     | _, _, _, _ => false) &&
    (match mf.lookup "content" with
     | some (.arr xs) => xs.all fun x =>
         ((validateTextBlock x).isSome || (validateToolUseBlock x).isSome ||
          (validateThinkingBlock x).isSome)
     | _ => false) &&
    (match mf.lookup "usage" with
     | some (.obj uf) =>
         (match uf.lookup "input_tokens", uf.lookup "output_tokens" with
          | some (.num _), some (.num _) => true
          | _, _ => false)
     | _ => false)
  | _ => false

/-- The assistant branch as written in the source: the diagnostic
compatibility check against the provider-native message shape is attempted
when a message field is present, and both of its outcomes continue into the
same standard parsing path. -/
def parseAssistantChecked (data : List (String × Json)) : Except String AssistantTranscriptEntry :=
  match data.lookup "message" with
  | some m =>
    match validateAnthropicMessage m with
    | true => parseAssistantCore data
    | false => parseAssistantCore data
  | none => parseAssistantCore data

/-- The assistant branch with the diagnostic compatibility check removed. -/
def parseAssistantUnchecked (data : List (String × Json)) : Except String AssistantTranscriptEntry :=
  parseAssistantCore data

/-- Decode a raw record already known to carry the `summary` tag. -/
def parseSummaryEntry (data : List (String × Json)) : Except String SummaryTranscriptEntry :=
  match data.lookup "summary", data.lookup "leafUuid" with
  | some (.str s), some (.str l) =>
    match optField data "cwd" asStrOpt with
    | some c => .ok ⟨s, l, c⟩
    | none => .error "summary.cwd"
  | _, _ => .error "summary"

/-- Decode a raw record already known to carry the `system` tag. -/
def parseSystemEntry (data : List (String × Json)) : Except String SystemTranscriptEntry :=
  match data.lookup "content" with
  | some (.str c) =>
    match optField data "level" asStrOpt with
    | none => .error "system.level"
    | some lv =>
      match validateBaseMeta data with
      | none => .error "system.base"
      | some b => .ok ⟨b, c, lv⟩
  | _ => .error "system.content"

/-- Decode the optional `content` field of a queue operation: a list is
rewritten by the message-content rule, null or absence is None, and any
other value fails validation. -/
def decodeQueueContentField : Option Json → Except String (Option (List ContentItem))
  | none => .ok none
  | some .null => .ok none
  | some (.arr xs) =>
    match parse_message_content (.arr xs) with
    | .items l => .ok (some l)
    | .str _ => .error "queue-operation.content"
  | some _ => .error "queue-operation.content"

/-- Decode a raw record already known to carry the `queue-operation` tag. -/
def parseQueueOperationEntry (data : List (String × Json)) :
    Except String QueueOperationTranscriptEntry :=
  match decodeQueueContentField (data.lookup "content") with
  | .error e => .error e
  | .ok content =>
    match data.lookup "operation", data.lookup "timestamp", data.lookup "sessionId" with
    | some (.str "enqueue"), some (.str ts), some (.str sid) =>
        .ok ⟨.enqueue, ts, sid, content⟩
    | some (.str "dequeue"), some (.str ts), some (.str sid) =>
        .ok ⟨.dequeue, ts, sid, content⟩
    | _, _, _ => .error "queue-operation"

/-- A fatal decoding failure: an unrecognized top-level discriminator
(carrying the offending value, absent discriminators carrying none), or a
structural validation failure of a matched variant. -/
inductive DecodeErr where
  | unknownEntryKind (discriminator : Option Json) : DecodeErr
  | malformed (context : String) : DecodeErr

/-- The transcript-entry decoder: read the top-level `type` value, dispatch
to the matching variant decoder, and fail with the unknown-entry-kind error
carrying the discriminator for any other value (or its absence). -/
def parse_transcript_entry (data : List (String × Json)) : Except DecodeErr TranscriptEntry :=
  match data.lookup "type" with
  | some (.str "user") =>
      ((parseUserEntry data).map TranscriptEntry.user).mapError DecodeErr.malformed
  | some (.str "assistant") =>
      ((parseAssistantChecked data).map TranscriptEntry.assistant).mapError DecodeErr.malformed
  | some (.str "summary") =>
      ((parseSummaryEntry data).map TranscriptEntry.summary).mapError DecodeErr.malformed
  | some (.str "system") =>
      ((parseSystemEntry data).map TranscriptEntry.system).mapError DecodeErr.malformed
  | some (.str "queue-operation") =>
      ((parseQueueOperationEntry data).map TranscriptEntry.queueOperation).mapError DecodeErr.malformed
  | t => .error (.unknownEntryKind t)

/- Encoding decoded entries back to JSON (the model-dump semantics: every
field is emitted, None fields as null, nested models as objects, literal
tags re-emitted). -/

/-- Dump an optional string field. -/
def encodeOptStr : Option String → Json
  | none => .null
  | some s => .str s

/-- Dump an optional bool field. -/
def encodeOptBool : Option Bool → Json
  | none => .null
  | some b => .bool b

/-- Dump an optional int field. -/
def encodeOptInt : Option Int → Json
  | none => .null
  | some n => .num n

/-- Dump an optional untyped-mapping field. -/
def encodeOptObj : Option (List (String × Json)) → Json
  | none => .null
  | some f => .obj f

/-- Dump an optional untyped field. -/
def encodeAnyOpt : Option Json → Json
  | none => .null
  | some j => j

/-- Dump a tool-result body. -/
def encodeToolResultBody : ToolResultBody → Json
  | .str s => .str s
  | .items l => .arr (l.map Json.obj)

/-- Dump one content item, re-emitting its literal type tag. -/
def encodeContentItem : ContentItem → Json
  | .textBlock b => .obj [("type", .str "text"), ("text", .str b.text)]
  | .text t => .obj [("type", .str "text"), ("text", .str t.text)]
  | .toolUseBlock b =>
      .obj [("type", .str "tool_use"), ("id", .str b.id), ("name", .str b.name),
            ("input", .obj b.input)]
  | .toolUse t =>
      .obj [("type", .str "tool_use"), ("id", .str t.id), ("name", .str t.name),
            ("input", .obj t.input)]
  | .thinkingBlock b =>
      .obj [("type", .str "thinking"), ("thinking", .str b.thinking),
            ("signature", .str b.signature)]
  | .thinking t =>
      .obj [("type", .str "thinking"), ("thinking", .str t.thinking),
            ("signature", encodeOptStr t.signature)]
  | .toolResult t =>
      .obj [("type", .str "tool_result"), ("tool_use_id", .str t.tool_use_id),
            ("content", encodeToolResultBody t.content),
            ("is_error", encodeOptBool t.is_error)]
  | .image i =>
      .obj [("type", .str "image"),
            ("source", .obj [("type", .str "base64"),
                             ("media_type", .str i.source.media_type),
                             ("data", .str i.source.data)])]

/-- Dump a message-content value. -/
def encodeMessageContent : MessageContent → Json
  | .str s => .str s
  | .items l => .arr (l.map encodeContentItem)

/-- Dump a canonical usage record as a dict. -/
def encodeUsageInfo (u : UsageInfo) : List (String × Json) :=
  [("input_tokens", encodeOptInt u.input_tokens),
   ("cache_creation_input_tokens", encodeOptInt u.cache_creation_input_tokens),
   ("cache_read_input_tokens", encodeOptInt u.cache_read_input_tokens),
   ("output_tokens", encodeOptInt u.output_tokens),
   ("service_tier", encodeOptStr u.service_tier),
   ("server_tool_use", encodeOptObj u.server_tool_use)]

/-- Dump an optional usage record. -/
def encodeOptUsage : Option UsageInfo → Json
  | none => .null
  | some u => .obj (encodeUsageInfo u)

/-- Dump a todo status tag. -/
def encodeTodoStatus : TodoStatus → Json
  | .pending => .str "pending"
  | .in_progress => .str "in_progress"
  | .completed => .str "completed"

/-- Dump a todo priority tag. -/
def encodeTodoPriority : TodoPriority → Json
  | .high => .str "high"
  | .medium => .str "medium"
  | .low => .str "low"

/-- Dump one todo item. -/
def encodeTodoItem (t : TodoItem) : Json :=
  .obj [("id", .str t.id), ("content", .str t.content),
        ("status", encodeTodoStatus t.status), ("priority", encodeTodoPriority t.priority)]

/-- Dump the file metadata record. -/
def encodeFileInfo (f : FileInfo) : Json :=
  .obj [("filePath", .str f.filePath), ("content", .str f.content),
        ("numLines", .num f.numLines), ("startLine", .num f.startLine),
        ("totalLines", .num f.totalLines)]

/-- Dump a tool-use result. -/
def encodeToolUseResult : ToolUseResult → Json
  | .str s => .str s
  | .todos l => .arr (l.map encodeTodoItem)
  | .fileRead r => .obj [("type", .str "text"), ("file", encodeFileInfo r.file)]
  | .command r =>
      .obj [("stdout", .str r.stdout), ("stderr", .str r.stderr),
            ("interrupted", .bool r.interrupted), ("isImage", .bool r.isImage)]
  | .todoDiff r =>
      .obj [("oldTodos", .arr (r.oldTodos.map encodeTodoItem)),
            ("newTodos", .arr (r.newTodos.map encodeTodoItem))]
  | .edit r =>
      .obj [("oldString", encodeOptStr r.oldString), ("newString", encodeOptStr r.newString),
            ("replaceAll", encodeOptBool r.replaceAll),
            ("originalFile", encodeOptStr r.originalFile),
            ("structuredPatch", encodeAnyOpt r.structuredPatch),
            ("userModified", encodeOptBool r.userModified)]
  | .contentItems l => .arr (l.map encodeContentItem)

/-- Dump an optional tool-use result. -/
def encodeOptToolUseResult : Option ToolUseResult → Json
  | none => .null
  | some t => encodeToolUseResult t

/-- Dump an optional content-item sequence. -/
def encodeOptItems : Option (List ContentItem) → Json
  | none => .null
  | some l => .arr (l.map encodeContentItem)

/-- Dump the shared session-metadata fields. -/
def encodeBaseFields (b : BaseTranscriptEntry) : List (String × Json) :=
  [("parentUuid", encodeOptStr b.parentUuid), ("isSidechain", .bool b.isSidechain),
   ("userType", .str b.userType), ("cwd", .str b.cwd), ("sessionId", .str b.sessionId),
   ("version", .str b.version), ("uuid", .str b.uuid), ("timestamp", .str b.timestamp),
   ("isMeta", encodeOptBool b.isMeta)]

/-- Dump an assistant message as a dict. -/
def encodeAssistantMessage (m : AssistantMessage) : List (String × Json) :=
  [("id", .str m.id), ("type", .str "message"), ("role", .str "assistant"),
   ("model", .str m.model), ("content", .arr (m.content.map encodeContentItem)),
   ("stop_reason", encodeOptStr m.stop_reason),
   ("stop_sequence", encodeOptStr m.stop_sequence), ("usage", encodeOptUsage m.usage)]

/-- Dump the queue-operation tag. -/
def encodeQueueOp : QueueOp → Json
  | .enqueue => .str "enqueue"
  | .dequeue => .str "dequeue"

/-- Dump a decoded transcript entry back to a raw JSON record. -/
def encodeEntry : TranscriptEntry → List (String × Json)
  | .user e =>
      encodeBaseFields e.base ++
      [("type", .str "user"),
       ("message", .obj [("role", .str "user"),
                         ("content", encodeMessageContent e.message.content)]),
       ("toolUseResult", encodeOptToolUseResult e.toolUseResult)]
  | .assistant e =>
      encodeBaseFields e.base ++
      [("type", .str "assistant"),
       ("message", .obj (encodeAssistantMessage e.message)),
       ("requestId", encodeOptStr e.requestId)]
  | .summary e =>
      [("type", .str "summary"), ("summary", .str e.summary),
       ("leafUuid", .str e.leafUuid), ("cwd", encodeOptStr e.cwd)]
  | .system e =>
      encodeBaseFields e.base ++
      [("type", .str "system"), ("content", .str e.content),
       ("level", encodeOptStr e.level)]
  | .queueOperation e =>
      [("type", .str "queue-operation"), ("operation", encodeQueueOp e.operation),
       ("timestamp", .str e.timestamp), ("sessionId", .str e.sessionId),
       ("content", encodeOptItems e.content)]

/- Canonical (decoder-normal) form: the shapes the decoder itself produces
when no content item fell back to the catch-all text rendering.  Re-decoding
an encoded entry reproduces the entry exactly on this fragment. -/

/-- A content item is canonical when it uses the provider-preferred shape:
the decoder only produces the local text and tool-use shapes through the
catch-all fallback (their validation conditions coincide with the
provider-native ones), and only produces the local thinking shape when the
raw block had no string signature. -/
def ContentItem.isCanonical : ContentItem → Bool
  | .text _ => false
  | .toolUse _ => false
  | .thinking t => t.signature.isNone
  | _ => true

/-- A tool-use result is canonical when any MCP-style content-item sequence
in it is non-empty and canonical elementwise, and an edit result does not
wrap an explicit JSON null as its structured patch. -/
def ToolUseResult.isCanonical : ToolUseResult → Bool
  | .contentItems l => (!l.isEmpty) && l.all ContentItem.isCanonical
  | .edit r =>
    match r.structuredPatch with
    | some .null => false
    | _ => true
  | _ => true

/-- A message content value is canonical when its items all are. -/
def MessageContent.isCanonical : MessageContent → Bool
  | .str _ => true
  | .items l => l.all ContentItem.isCanonical

/-- A decoded entry is canonical when every content item reachable in it is
canonical (and its tool-use result, if any, is). -/
def TranscriptEntry.isCanonical : TranscriptEntry → Bool
  | .user e =>
    e.message.content.isCanonical &&
    (match e.toolUseResult with
     | none => true
     | some t => t.isCanonical)
  | .assistant e => e.message.content.all ContentItem.isCanonical
  | .summary _ => true
  | .system _ => true
  | .queueOperation e =>
    match e.content with
    | none => true
    | some l => l.all ContentItem.isCanonical

/- Remaining definitions used by the statements: the fallback condition of
the content-item decoder, and concrete records exercised by the theorems. -/

/-- Whether the shape validation selected by a raw object's type tag fails —
the condition under which the content-item decoder falls back to the text
rendering of the whole input.  An object with an unknown or missing tag
always counts as failing. -/
def shapeValidationFails (f : List (String × Json)) : Bool :=
  match f.lookup "type" with
  | some (.str "text") =>
      (validateTextBlock (.obj f)).isNone && (validateTextContent (.obj f)).isNone
  | some (.str "tool_use") =>
      (validateToolUseBlock (.obj f)).isNone && (validateToolUseContent (.obj f)).isNone
  | some (.str "thinking") =>
      (validateThinkingBlock (.obj f)).isNone && (validateThinkingContent (.obj f)).isNone
  | some (.str "tool_result") => (validateToolResultContent (.obj f)).isNone
  | some (.str "image") => (validateImageContent (.obj f)).isNone
  | _ => true

/-- Session-metadata fields of the concrete records used below. -/
def baseRaw : List (String × Json) :=
  [("parentUuid", .null), ("isSidechain", .bool false), ("userType", .str "external"),
   ("cwd", .str "/w"), ("sessionId", .str "s1"), ("version", .str "1.0"),
   ("uuid", .str "u1"), ("timestamp", .str "2024-01-01T00:00:00Z")]

/-- The decoded session metadata of `baseRaw`. -/
def baseVal : BaseTranscriptEntry :=
  ⟨none, false, "external", "/w", "s1", "1.0", "u1", "2024-01-01T00:00:00Z", none⟩

/-- An MCP-style tool-use-result sequence containing a non-dict element. -/
def c9items : List Json :=
  [.obj [("type", .str "text"), ("text", .str "ok")], .str "junk"]

/-- A user record whose tool-use result is `c9items`. -/
def c9raw : List (String × Json) :=
  [("type", .str "user"),
   ("message", .obj [("role", .str "user"), ("content", .str "hi")]),
   ("toolUseResult", .arr c9items)] ++ baseRaw

/-- The entry `c9raw` decodes to. -/
def c9entry : UserTranscriptEntry :=
  ⟨baseVal, ⟨.str "hi"⟩, some (.contentItems [.textBlock ⟨"ok"⟩])⟩

/-- An MCP-style tool-use-result sequence whose second element is a JSON
null (not an object). -/
def c4items : List Json :=
  [.obj [("type", .str "text"), ("text", .str "ok")], .null]

/-- A user record whose tool-use result is `c4items`. -/
def c4raw : List (String × Json) :=
  [("type", .str "user"),
   ("message", .obj [("role", .str "user"), ("content", .str "hi")]),
   ("toolUseResult", .arr c4items)] ++ baseRaw

/-- The entry `c4raw` decodes to. -/
def c4entry : UserTranscriptEntry :=
  ⟨baseVal, ⟨.str "hi"⟩, some (.contentItems [.textBlock ⟨"ok"⟩])⟩

/-- A user record exercising the MCP scenario of the spec: the tool-use
result is exactly one text item. -/
def mcpScenarioRaw : List (String × Json) :=
  [("type", .str "user"),
   ("message", .obj [("role", .str "user"), ("content", .str "hi")]),
   ("toolUseResult", .arr [.obj [("type", .str "text"), ("text", .str "ok")]])] ++ baseRaw

/-- A queue-operation record whose content holds one unknown-typed item, so
that its decoding takes the catch-all text fallback. -/
def fallbackQueueRaw : List (String × Json) :=
  [("type", .str "queue-operation"), ("operation", .str "enqueue"),
   ("timestamp", .str "t1"), ("sessionId", .str "s1"),
   ("content", .arr [.obj [("type", .str "bogus")]])]

/-- The entry `fallbackQueueRaw` decodes to: the unknown item became a local
text item rendering the raw input. -/
def fallbackQueueEntry : QueueOperationTranscriptEntry :=
  ⟨.enqueue, "t1", "s1", some [.text ⟨"\x7b'type': 'bogus'\x7d"⟩]⟩

/-- What re-decoding the dump of `fallbackQueueEntry` yields: the fallback
text item comes back as a provider-native text block. -/
def fallbackQueueEntryRedecoded : QueueOperationTranscriptEntry :=
  ⟨.enqueue, "t1", "s1", some [.textBlock ⟨"\x7b'type': 'bogus'\x7d"⟩]⟩

/-- A minimal summary record lacking its required fields: its discriminator
is known but structural validation fails. -/
def bareSummaryRaw : List (String × Json) := [("type", .str "summary")]

/-- A canonical decoded user entry exercising the round-trip law. -/
def rtWitnessEntry : TranscriptEntry :=
  .user ⟨baseVal, ⟨.items [.textBlock ⟨"hi"⟩, .thinking ⟨"think", none⟩]⟩,
         some (.contentItems [.textBlock ⟨"ok"⟩])⟩

/-- A complete summary record. -/
def summaryRaw : List (String × Json) :=
  [("type", .str "summary"), ("summary", .str "s"), ("leafUuid", .str "l")]

/- Theorems.  Helper lemmas come first, then one theorem per claim. -/

/-- The diagnostic provider-shape check of the assistant branch discards its
outcome, so the branch equals the bare standard path. -/
theorem parseAssistantChecked_eq_core (data : List (String × Json)) :
    parseAssistantChecked data = parseAssistantCore data := by
  unfold parseAssistantChecked
  cases data.lookup "message" with
  | none => rfl
  | some m => cases h : validateAnthropicMessage m <;> simp [h]

/-- C2: the content-item decoder is total — it is a plain function into
`ContentItem` — and whenever the input is not an object, or the shape
validation selected by its type tag fails (in particular for a missing or
unrecognized tag), the result is a Text item rendering the whole input. -/
theorem parse_content_item_total (j : Json) :
    (∀ f, j = Json.obj f → shapeValidationFails f = true →
      parse_content_item j = .text ⟨pyStr j⟩) ∧
    (j.isObj = false → parse_content_item j = .text ⟨pyStr j⟩) := by
  constructor
  · rintro f rfl hf
    unfold shapeValidationFails at hf
    simp only [parse_content_item]
    split
    next heq =>
      simp only [heq, Bool.and_eq_true, Option.isNone_iff_eq_none] at hf
      simp [hf.1, hf.2]
    next heq =>
      simp only [heq, Bool.and_eq_true, Option.isNone_iff_eq_none] at hf
      simp [hf.1, hf.2]
    next heq =>
      simp only [heq, Bool.and_eq_true, Option.isNone_iff_eq_none] at hf
      simp [hf.1, hf.2]
    next heq =>
      simp only [heq, Option.isNone_iff_eq_none] at hf
      simp [hf]
    next heq =>
      simp only [heq, Option.isNone_iff_eq_none] at hf
      simp [hf]
    next => rfl
  · intro h
    cases j <;> simp_all [Json.isObj, parse_content_item]

/-- C2 witness: a concrete object with an unrecognized tag decodes to the
text rendering of itself, and a concrete non-object does too. -/
theorem parse_content_item_total_witness :
    parse_content_item (.obj [("type", .str "mystery")]) =
        .text ⟨pyStr (.obj [("type", .str "mystery")])⟩ ∧
    parse_content_item (.num 7) = .text ⟨pyStr (.num 7)⟩ :=
  ⟨(parse_content_item_total (.obj [("type", .str "mystery")])).1 _ rfl (by rfl),
   (parse_content_item_total (.num 7)).2 (by rfl)⟩

/-- C5: decoding a `message.content` sequence maps the content-item decoder
over the sequence, preserving length and order (the i-th output is the
decoding of the i-th input), and a string content value passes through
verbatim. -/
theorem parse_message_content_order :
    (∀ xs : List Json,
      parse_message_content (.arr xs) = .items (xs.map parse_content_item) ∧
      (xs.map parse_content_item).length = xs.length ∧
      ∀ i : Nat, (xs.map parse_content_item)[i]? = xs[i]?.map parse_content_item) ∧
    (∀ s, parse_message_content (.str s) = .str s) :=
  ⟨fun xs => ⟨rfl, xs.length_map _, fun i => by simp⟩, fun _ => rfl⟩

/-- C6: the decoded result of the assistant branch is the same with the
best-effort provider-shape compatibility check present or removed: the two
embeddings are equal as functions. -/
theorem assistant_check_no_effect (data : List (String × Json)) :
    parseAssistantChecked data = parseAssistantUnchecked data :=
  parseAssistantChecked_eq_core data

/-- C7: the usage normalizer maps None to None, returns an already-canonical
record unchanged, and is therefore idempotent: feeding any successful result
back in returns it unchanged. -/
theorem normalize_usage_idempotent :
    normalize_usage_info .pyNone = .ok none ∧
    (∀ u, normalize_usage_info (.usageInfo u) = .ok (some u)) ∧
    (∀ x r, normalize_usage_info x = .ok r →
      normalize_usage_info (UsageData.ofResult r) = .ok r) := by
  refine ⟨rfl, fun u => rfl, fun x r _ => ?_⟩
  cases r <;> rfl

/-- C7 witness: idempotence applied to the concrete legacy usage dict. -/
theorem normalize_usage_idempotent_witness :
    normalize_usage_info
        (UsageData.ofResult (some ⟨some 5, none, none, some 10, none, none⟩)) =
      .ok (some ⟨some 5, none, none, some 10, none, none⟩) :=
  normalize_usage_idempotent.2.2
    (.dict [("input_tokens", .num 5), ("output_tokens", .num 10)])
    (some ⟨some 5, none, none, some 10, none, none⟩) (by rfl)

/-- C3 counterexample: an object exposing only an `input_tokens` attribute
(no `output_tokens`) normalizes to None, not to a non-null record — the
duck-typed branch is guarded by the presence of both attributes. -/
theorem duck_fallback_counterexample :
    normalize_usage_info (.pyObject [("input_tokens", .num 5)]) = .ok none := rfl

/-- C3 as amended: every plain object input lacking an `output_tokens`
attribute normalizes to None — the duck-typed fallback requires both token
attributes to be present. -/
theorem duck_fallback_requires_both (attrs : List (String × Json))
    (_h1 : (attrs.lookup "input_tokens").isSome = true)
    (h2 : (attrs.lookup "output_tokens").isNone = true) :
    normalize_usage_info (.pyObject attrs) = .ok none := by
  simp only [normalize_usage_info]
  rw [Option.isNone_iff_eq_none] at h2
  rw [h2]
  simp

/-- C3 witness: the amended statement at the concrete one-attribute object. -/
theorem duck_fallback_requires_both_witness :
    normalize_usage_info (.pyObject [("input_tokens", .num 5), ("service_tier", .str "std")]) =
      .ok none :=
  duck_fallback_requires_both _ (by rfl) (by rfl)

/-- C10: the usage normalizer never returns None on a dict input — the final
anything-else-to-None branch is unreachable for dicts — and a dict whose
fields fail canonical validation (a non-integer `input_tokens`) raises a
validation error instead of degrading. -/
theorem dict_normalization_not_total :
    (∀ fields, normalize_usage_info (.dict fields) ≠ .ok none) ∧
    normalize_usage_info (.dict [("input_tokens", Json.arr [])]) =
      .error .validationError := by
  constructor
  · intro fields h
    simp only [normalize_usage_info] at h
    cases hv : validateUsageInfo fields with
    | none => rw [hv] at h; simp at h
    | some u => rw [hv] at h; simp at h
  · rfl

/-- A dispatched variant decoder never reports the unknown-entry-kind error,
and its successful result answers to that variant's tag. -/
theorem dispatch_branch_spec {α : Type} (r : Except String α) (g : α → TranscriptEntry) (t : String)
    (hg : ∀ a, variantTag (g a) = t) :
    (∀ d, (r.map g).mapError DecodeErr.malformed ≠ .error (.unknownEntryKind d)) ∧
    (∀ e, (r.map g).mapError DecodeErr.malformed = .ok e → variantTag e = t) := by
  cases r with
  | error m =>
    refine ⟨fun d h => ?_, fun e h => ?_⟩
    · simp [Except.map, Except.mapError] at h
    · simp [Except.map, Except.mapError] at h
  | ok a =>
    refine ⟨fun d h => ?_, fun e h => ?_⟩
    · simp [Except.map, Except.mapError] at h
    · simp only [Except.map, Except.mapError, Except.ok.injEq] at h
      rw [← h]
      exact hg a

/-- C1 counterexample: a record whose discriminator is the known tag
"summary" but whose required fields are missing does not decode to the
matching variant — it fails with a structural validation error, so dispatch
has a third outcome beyond the two the claim admits. -/
theorem discriminator_dispatch_counterexample :
    parse_transcript_entry bareSummaryRaw = .error (.malformed "summary") := rfl

/-- C1 as amended: a record with a known discriminator either decodes to the
matching variant or fails with a structural (malformed-entry) error — never
with the unknown-entry-kind error — and a record whose discriminator is
absent or not one of the five known tags always fails with the
unknown-entry-kind error carrying that exact discriminator value. -/
theorem discriminator_dispatch :
    (∀ data s, data.lookup "type" = some (Json.str s) → s ∈ knownTags →
      (∀ d, parse_transcript_entry data ≠ .error (.unknownEntryKind d)) ∧
      (∀ e, parse_transcript_entry data = .ok e → variantTag e = s)) ∧
    (∀ data, (∀ s, data.lookup "type" = some (Json.str s) → s ∉ knownTags) →
      parse_transcript_entry data = .error (.unknownEntryKind (data.lookup "type"))) := by
  constructor
  · intro data s hs hmem
    fin_cases hmem <;>
      · simp only [parse_transcript_entry, hs]
        exact dispatch_branch_spec _ _ _ (fun a => rfl)
  · intro data hs
    simp only [parse_transcript_entry]
    split
    next heq => exact absurd (by decide) (hs _ heq)
    next heq => exact absurd (by decide) (hs _ heq)
    next heq => exact absurd (by decide) (hs _ heq)
    next heq => exact absurd (by decide) (hs _ heq)
    next heq => exact absurd (by decide) (hs _ heq)
    next => rfl

/-- C1 witness: the amended statement at a complete summary record (decodes
to the summary variant) and at a record with the unknown tag "bogus". -/
theorem discriminator_dispatch_witness :
    variantTag (.summary ⟨"s", "l", none⟩) = "summary" ∧
    parse_transcript_entry [("type", .str "bogus")] =
      .error (.unknownEntryKind (some (.str "bogus"))) := by
  constructor
  · exact (discriminator_dispatch.1 summaryRaw "summary" (by rfl) (by decide)).2
      (.summary ⟨"s", "l", none⟩) (by rfl)
  · exact discriminator_dispatch.2 [("type", .str "bogus")]
      (fun s hs => by
        simp [List.lookup] at hs
        subst hs
        decide)

/-- C4 counterexample: a user record whose MCP-style tool-use-result
sequence contains a JSON null decodes to a one-element content-item
sequence, which differs from decoding the whole sequence through the
content-item decoder (that would render the null as a second, text item). -/
theorem mcp_whole_sequence_counterexample :
    parse_transcript_entry c4raw = .ok (.user c4entry) ∧
    c4entry.toolUseResult ≠ some (.contentItems (c4items.map parse_content_item)) := by
  refine ⟨by rfl, ?_⟩
  have hmap : c4items.map parse_content_item =
      [.textBlock ⟨"ok"⟩, .text ⟨"None"⟩] := rfl
  rw [hmap]
  simp [c4entry]

/-- C4 as amended: when a user record's `toolUseResult` is a sequence whose
first element is a dict carrying a `type` key, a successful decode carries
the dict elements of the sequence mapped through the content-item decoder
(non-dict elements are dropped); when every element is a dict this is the
decoding of the whole sequence — in particular the one-element MCP scenario
decodes to a one-element content-item sequence, not the EditResult-like
shape. -/
theorem mcp_sequence_decoded (data : List (String × Json)) (items : List Json)
    (htype : data.lookup "type" = some (.str "user"))
    (htur : data.lookup "toolUseResult" = some (.arr items))
    (hmcp : mcpCondition items = true)
    (e : UserTranscriptEntry)
    (hok : parse_transcript_entry data = .ok (.user e)) :
    e.toolUseResult = some (.contentItems ((items.filter Json.isObj).map parse_content_item)) ∧
    ((∀ x ∈ items, x.isObj = true) →
      e.toolUseResult = some (.contentItems (items.map parse_content_item))) := by
  have hdec : decodeToolUseResultField (data.lookup "toolUseResult") =
      .ok (some (.contentItems ((items.filter Json.isObj).map parse_content_item))) := by
    rw [htur]
    simp [decodeToolUseResultField, hmcp]
  have hmain : e.toolUseResult =
      some (.contentItems ((items.filter Json.isObj).map parse_content_item)) := by
    simp only [parse_transcript_entry, htype] at hok
    cases hp : parseUserEntry data with
    | error m => rw [hp] at hok; simp [Except.map, Except.mapError] at hok
    | ok u =>
      rw [hp] at hok
      simp only [Except.map, Except.mapError, Except.ok.injEq, TranscriptEntry.user.injEq] at hok
      subst hok
      unfold parseUserEntry at hp
      cases hm : decodeUserMessageField (data.lookup "message") with
      | error m => rw [hm] at hp; simp at hp
      | ok msg =>
        rw [hm] at hp
        rw [hdec] at hp
        simp only at hp
        cases hb : validateBaseMeta data with
        | none => rw [hb] at hp; simp at hp
        | some b =>
          rw [hb] at hp
          simp only [Except.ok.injEq] at hp
          rw [← hp]
  refine ⟨hmain, fun hall => ?_⟩
  rw [hmain, List.filter_eq_self.mpr hall]

/-- C4 witness: the amended statement at the concrete MCP scenario record
with `toolUseResult` equal to one text item. -/
theorem mcp_sequence_decoded_witness :
    (⟨baseVal, ⟨.str "hi"⟩, some (.contentItems [.textBlock ⟨"ok"⟩])⟩
        : UserTranscriptEntry).toolUseResult =
      some (.contentItems
        (([Json.obj [("type", .str "text"), ("text", .str "ok")]].filter Json.isObj).map
          parse_content_item)) :=
  (mcp_sequence_decoded mcpScenarioRaw
    [Json.obj [("type", .str "text"), ("text", .str "ok")]]
    (by rfl) (by rfl) (by rfl) _ (by rfl)).1

/-- C10 witness: the never-None conjunct at a concrete dict. -/
theorem dict_normalization_not_total_witness :
    normalize_usage_info (.dict [("input_tokens", Json.num 3)]) ≠ .ok none :=
  dict_normalization_not_total.1 [("input_tokens", Json.num 3)]

/-- C9: on the MCP path, non-dict elements of the tool-use-result sequence
are silently dropped before decoding: this concrete two-element sequence
containing a string decodes to a one-element content-item sequence. -/
theorem mcp_nonobject_dropped :
    parse_transcript_entry c9raw = .ok (.user c9entry) ∧
    c9entry.toolUseResult = some (.contentItems [.textBlock ⟨"ok"⟩]) ∧
    [ContentItem.textBlock ⟨"ok"⟩].length < c9items.length := by
  refine ⟨by rfl, rfl, by simp [c9items]⟩

/- Round-trip helper lemmas: re-decoding the dump of each canonical
component reproduces it. -/

/-- A dumped dict list re-validates to itself. -/
theorem asDictList_map_obj (l : List (List (String × Json))) :
    asDictList (l.map Json.obj) = some l := by
  induction l with
  | nil => rfl
  | cons x xs ih => simp [asDictList, ih]

/-- Re-decoding the dump of a canonical content item reproduces it. -/
theorem parse_encode_contentItem (c : ContentItem) (h : c.isCanonical = true) :
    parse_content_item (encodeContentItem c) = c := by
  cases c with
  | textBlock b => obtain ⟨t⟩ := b; rfl
  | text t => simp [ContentItem.isCanonical] at h
  | toolUseBlock b => obtain ⟨i, n, inp⟩ := b; rfl
  | toolUse t => simp [ContentItem.isCanonical] at h
  | thinkingBlock b => obtain ⟨th, sg⟩ := b; rfl
  | thinking t =>
    obtain ⟨th, sg⟩ := t
    cases sg with
    | none => rfl
    | some s => simp [ContentItem.isCanonical, Option.isNone] at h
  | toolResult t =>
    obtain ⟨tid, body, err⟩ := t
    cases body with
    | str s => cases err <;> rfl
    | items l =>
      cases err <;>
      · simp [parse_content_item, encodeContentItem, validateToolResultContent,
              asToolResultBody, asDictList_map_obj, optField, asBoolOpt, encodeOptBool,
              encodeToolResultBody, List.lookup]
  | image i => obtain ⟨⟨mt, d⟩⟩ := i; rfl

/-- Re-decoding the dumps of a list of canonical content items reproduces
the list. -/
theorem parse_encode_items (l : List ContentItem) (h : l.all ContentItem.isCanonical = true) :
    (l.map encodeContentItem).map parse_content_item = l := by
  induction l with
  | nil => rfl
  | cons c cs ih =>
    simp only [List.all_cons, Bool.and_eq_true] at h
    simp [parse_encode_contentItem c h.1, ih h.2]

/-- Re-decoding the dump of a canonical message content reproduces it. -/
theorem parse_encode_messageContent (mc : MessageContent) (h : mc.isCanonical = true) :
    parse_message_content (encodeMessageContent mc) = mc := by
  cases mc with
  | str s => rfl
  | items l =>
    simp only [MessageContent.isCanonical] at h
    simp [encodeMessageContent, parse_message_content, parse_encode_items l h]

/-- A dumped optional string field re-validates to itself. -/
theorem asStrOpt_encode (o : Option String) : asStrOpt (encodeOptStr o) = some o := by
  cases o <;> rfl

/-- A dumped optional int field re-validates to itself. -/
theorem asIntOpt_encode (o : Option Int) : asIntOpt (encodeOptInt o) = some o := by
  cases o <;> rfl

/-- A dumped optional mapping field re-validates to itself. -/
theorem asObjOpt_encode (o : Option (List (String × Json))) :
    asObjOpt (encodeOptObj o) = some o := by
  cases o <;> rfl

/-- A dumped usage record re-validates to itself. -/
theorem validateUsageInfo_encode (u : UsageInfo) :
    validateUsageInfo (encodeUsageInfo u) = some u := by
  obtain ⟨it, ccit, crit, ot, tier, stu⟩ := u
  simp [validateUsageInfo, encodeUsageInfo, optField, List.lookup,
        asIntOpt_encode, asStrOpt_encode, asObjOpt_encode]

/-- The dumped session metadata re-validates to itself, regardless of the
variant fields dumped after it. -/
theorem validateBaseMeta_encode (b : BaseTranscriptEntry) (rest : List (String × Json)) :
    validateBaseMeta (encodeBaseFields b ++ rest) = some b := by
  obtain ⟨pu, sc, ut, cw, sid, vr, uu, ts, im⟩ := b
  cases pu <;> cases im <;> rfl

/-- A dumped todo item re-validates to itself. -/
theorem validateTodoItem_encode (t : TodoItem) :
    validateTodoItem (encodeTodoItem t) = some t := by
  obtain ⟨i, c, st, pr⟩ := t
  cases st <;> cases pr <;> rfl

/-- A dumped todo list re-validates to itself. -/
theorem validateTodoList_encode (l : List TodoItem) :
    validateTodoList (l.map encodeTodoItem) = some l := by
  induction l with
  | nil => rfl
  | cons t ts ih => simp [validateTodoList, validateTodoItem_encode, ih]

/-- Every dumped content item is a JSON object. -/
theorem isObj_encodeContentItem (c : ContentItem) : (encodeContentItem c).isObj = true := by
  cases c <;> rfl

/-- A non-empty dumped content-item sequence satisfies the MCP test (its
first element is an object carrying a type key). -/
theorem mcpCondition_encode (c : ContentItem) (cs : List ContentItem) :
    mcpCondition ((c :: cs).map encodeContentItem) = true := by
  cases c <;> rfl

/-- A dumped todo list never satisfies the MCP test (todo dumps carry no
type key). -/
theorem mcpCondition_todos (l : List TodoItem) :
    mcpCondition (l.map encodeTodoItem) = false := by
  cases l with
  | nil => rfl
  | cons t ts => rfl

/-- Re-decoding the dump of a canonical tool-use result reproduces it. -/
theorem decodeToolUseResultField_encode (t : ToolUseResult) (h : t.isCanonical = true) :
    decodeToolUseResultField (some (encodeToolUseResult t)) = .ok (some t) := by
  cases t with
  | str s => rfl
  | todos l =>
    simp only [encodeToolUseResult, decodeToolUseResultField]
    rw [mcpCondition_todos l]
    simp [decodeToolUseResultUnion, validateTodoList_encode]
  | fileRead r => obtain ⟨⟨fp, c, nl, sl, tl⟩⟩ := r; rfl
  | command r => obtain ⟨so, se, ir, im⟩ := r; rfl
  | todoDiff r =>
    obtain ⟨ol, nl⟩ := r
    simp [encodeToolUseResult, decodeToolUseResultField, decodeToolUseResultUnion,
          validateFileReadResult, validateCommandResult, validateTodoResult,
          validateTodoList_encode, List.lookup]
  | edit r =>
    obtain ⟨os, ns, ra, og, sp, um⟩ := r
    simp only [ToolUseResult.isCanonical] at h
    cases os <;> cases ns <;> cases ra <;> cases og <;> cases um <;>
      (cases sp with
       | none => rfl
       | some j => cases j <;> first | rfl | simp at h)
  | contentItems l =>
    simp only [ToolUseResult.isCanonical, Bool.and_eq_true] at h
    obtain ⟨hne, hall⟩ := h
    cases l with
    | nil => simp [List.isEmpty] at hne
    | cons c cs =>
      simp only [encodeToolUseResult, decodeToolUseResultField]
      rw [mcpCondition_encode c cs]
      simp only [if_pos]
      have hfilter : ((c :: cs).map encodeContentItem).filter Json.isObj =
          (c :: cs).map encodeContentItem := by
        apply List.filter_eq_self.mpr
        intro a ha
        simp only [List.mem_map] at ha
        obtain ⟨ci, _, rfl⟩ := ha
        exact isObj_encodeContentItem ci
      rw [hfilter, parse_encode_items _ hall]

/-- Re-decoding the dump of a canonical user message reproduces it. -/
theorem decodeUserMessageField_encode (mc : MessageContent) (h : mc.isCanonical = true) :
    decodeUserMessageField (some (.obj [("role", .str "user"),
        ("content", encodeMessageContent mc)])) = .ok ⟨mc⟩ := by
  simp [decodeUserMessageField, List.lookup, parse_encode_messageContent mc h]

/-- Re-decoding the dump of an assistant message with canonical content
reproduces it. -/
theorem decodeAssistantMessageField_encode (m : AssistantMessage)
    (h : m.content.all ContentItem.isCanonical = true) :
    decodeAssistantMessageField (some (.obj (encodeAssistantMessage m))) = .ok m := by
  obtain ⟨i, mdl, content, sr, ss, usage⟩ := m
  cases usage <;>
    simp [decodeAssistantMessageField, encodeAssistantMessage, List.lookup,
          normalizeUsageField, usageDataOfJson, normalize_usage_info,
          validateUsageInfo_encode, encodeOptUsage, parse_message_content,
          parse_encode_items _ h, optField, asStrOpt_encode]

/-- Re-decoding the dump of a canonical queue-operation content field
reproduces it. -/
theorem decodeQueueContentField_encode (c : Option (List ContentItem))
    (h : (match c with
          | none => true
          | some l => l.all ContentItem.isCanonical) = true) :
    decodeQueueContentField (some (encodeOptItems c)) = .ok c := by
  cases c with
  | none => rfl
  | some l =>
    simp only at h
    simp [encodeOptItems, decodeQueueContentField, parse_message_content,
          parse_encode_items l h]

/-- Re-decoding the dump of a canonical optional tool-use result reproduces
it. -/
theorem decodeToolUseResultField_encodeOpt (tur : Option ToolUseResult)
    (h : (match tur with
          | none => true
          | some t => t.isCanonical) = true) :
    decodeToolUseResultField (some (encodeOptToolUseResult tur)) = .ok tur := by
  cases tur with
  | none => rfl
  | some t => exact decodeToolUseResultField_encode t h

/-- C8 counterexample: a queue-operation record whose content item needed the
catch-all fallback decodes to a local text item; encoding it and decoding
again yields a provider-native text block instead, so the round trip does
not reproduce the first decoded value. -/
theorem round_trip_counterexample :
    parse_transcript_entry fallbackQueueRaw = .ok (.queueOperation fallbackQueueEntry) ∧
    parse_transcript_entry (encodeEntry (.queueOperation fallbackQueueEntry)) =
      .ok (.queueOperation fallbackQueueEntryRedecoded) ∧
    TranscriptEntry.queueOperation fallbackQueueEntry ≠
      .queueOperation fallbackQueueEntryRedecoded := by
  refine ⟨by rfl, by rfl, ?_⟩
  simp [fallbackQueueEntry, fallbackQueueEntryRedecoded]

/-- C8 as amended: for every decoded entry in canonical (decoder-normal)
form — no content item produced by the catch-all text fallback, no
locally-shaped tool-use item, no signature-bearing locally-shaped thinking
item, no empty MCP content-item sequence and no null wrapped as a structured
patch — encoding the entry back to JSON and decoding again yields the same
entry, for every variant. -/
theorem round_trip_canonical (e : TranscriptEntry) (h : e.isCanonical = true) :
    parse_transcript_entry (encodeEntry e) = .ok e := by
  cases e with
  | user u =>
    obtain ⟨b, ⟨mc⟩, tur⟩ := u
    simp only [TranscriptEntry.isCanonical, Bool.and_eq_true] at h
    obtain ⟨hmc, htur⟩ := h
    have h1 : decodeUserMessageField
        ((encodeEntry (.user ⟨b, ⟨mc⟩, tur⟩)).lookup "message") = .ok ⟨mc⟩ :=
      decodeUserMessageField_encode mc hmc
    have h2 : decodeToolUseResultField
        ((encodeEntry (.user ⟨b, ⟨mc⟩, tur⟩)).lookup "toolUseResult") = .ok tur :=
      decodeToolUseResultField_encodeOpt tur htur
    have h3 : validateBaseMeta (encodeEntry (.user ⟨b, ⟨mc⟩, tur⟩)) = some b :=
      validateBaseMeta_encode b _
    have hu : parseUserEntry (encodeEntry (.user ⟨b, ⟨mc⟩, tur⟩)) = .ok ⟨b, ⟨mc⟩, tur⟩ := by
      unfold parseUserEntry
      rw [h1, h2, h3]
    calc parse_transcript_entry (encodeEntry (.user ⟨b, ⟨mc⟩, tur⟩))
        = ((parseUserEntry (encodeEntry (.user ⟨b, ⟨mc⟩, tur⟩))).map
            TranscriptEntry.user).mapError DecodeErr.malformed := rfl
      _ = .ok (.user ⟨b, ⟨mc⟩, tur⟩) := by rw [hu]; rfl
  | assistant a =>
    obtain ⟨b, m, rid⟩ := a
    have hmsg : decodeAssistantMessageField
        ((encodeEntry (.assistant ⟨b, m, rid⟩)).lookup "message") = .ok m :=
      decodeAssistantMessageField_encode m h
    have hrid : optField (encodeEntry (.assistant ⟨b, m, rid⟩)) "requestId" asStrOpt =
        some rid := asStrOpt_encode rid
    have hb : validateBaseMeta (encodeEntry (.assistant ⟨b, m, rid⟩)) = some b :=
      validateBaseMeta_encode b _
    have hcore : parseAssistantCore (encodeEntry (.assistant ⟨b, m, rid⟩)) = .ok ⟨b, m, rid⟩ := by
      unfold parseAssistantCore
      rw [hmsg, hrid, hb]
    calc parse_transcript_entry (encodeEntry (.assistant ⟨b, m, rid⟩))
        = ((parseAssistantChecked (encodeEntry (.assistant ⟨b, m, rid⟩))).map
            TranscriptEntry.assistant).mapError DecodeErr.malformed := rfl
      _ = .ok (.assistant ⟨b, m, rid⟩) := by
          rw [parseAssistantChecked_eq_core, hcore]; rfl
  | summary s =>
    obtain ⟨sm, lu, cw⟩ := s
    cases cw <;> rfl
  | system sy =>
    obtain ⟨b, c, lv⟩ := sy
    have hlv : optField (encodeEntry (.system ⟨b, c, lv⟩)) "level" asStrOpt = some lv :=
      asStrOpt_encode lv
    have hb : validateBaseMeta (encodeEntry (.system ⟨b, c, lv⟩)) = some b :=
      validateBaseMeta_encode b _
    have hs : parseSystemEntry (encodeEntry (.system ⟨b, c, lv⟩)) = .ok ⟨b, c, lv⟩ := by
      unfold parseSystemEntry
      rw [hlv, hb]
      rfl
    calc parse_transcript_entry (encodeEntry (.system ⟨b, c, lv⟩))
        = ((parseSystemEntry (encodeEntry (.system ⟨b, c, lv⟩))).map
            TranscriptEntry.system).mapError DecodeErr.malformed := rfl
      _ = .ok (.system ⟨b, c, lv⟩) := by rw [hs]; rfl
  | queueOperation q =>
    obtain ⟨op, ts, sid, content⟩ := q
    have hc : decodeQueueContentField
        ((encodeEntry (.queueOperation ⟨op, ts, sid, content⟩)).lookup "content") =
        .ok content := decodeQueueContentField_encode content h
    have hq : parseQueueOperationEntry (encodeEntry (.queueOperation ⟨op, ts, sid, content⟩)) =
        .ok ⟨op, ts, sid, content⟩ := by
      unfold parseQueueOperationEntry
      rw [hc]
      cases op <;> rfl
    calc parse_transcript_entry (encodeEntry (.queueOperation ⟨op, ts, sid, content⟩))
        = ((parseQueueOperationEntry (encodeEntry (.queueOperation ⟨op, ts, sid, content⟩))).map
            TranscriptEntry.queueOperation).mapError DecodeErr.malformed := by
          cases op <;> rfl
      _ = .ok (.queueOperation ⟨op, ts, sid, content⟩) := by rw [hq]; rfl

/-- C8 witness: the amended round trip at a concrete canonical user entry
holding text, thinking and MCP tool-result items. -/
theorem round_trip_canonical_witness :
    TranscriptEntry.isCanonical rtWitnessEntry = true ∧
    parse_transcript_entry (encodeEntry rtWitnessEntry) = .ok rtWitnessEntry :=
  ⟨rfl, round_trip_canonical rtWitnessEntry rfl⟩

end Transcript
